import Mathlib

/-!
Shallow embedding of the EduManager grade-management core
(src/app_principal/models.py, forms.py, views.py).

Entities carry `Nat` ids; the teacher (Django `User`) is an opaque `Nat`.
Grade values are exact rationals (`Rat`); a submitted grade string is
modelled by `RawVal` (blank, non-numeric, or a finite decimal literal
`m / 10^p` written with `p` decimal places).  The relational store is a
`DB` record of four lists; Django querysets become list filters, and
`get_object_or_404` becomes `Option`-returning lookups.  Each view's
POST path is a pure function from the store and the request data to a
result that either carries the new store or a structured rejection.
-/

namespace EduManager

/-- `Materia` model (models.py lines 41-56): a subject with a name and an
owning teacher (`profesor = models.ForeignKey(User)`). -/
structure Materia where
  id : Nat
  nombre : String
  profesor : Nat
deriving Repr, DecidableEq

/-- `Alumno` model (models.py lines 64-78): a student with a name, a unique
email, and a many-to-many set of enrolled subjects (stored as subject ids). -/
structure Alumno where
  id : Nat
  nombre : String
  correo : String
  materias : List Nat
deriving Repr, DecidableEq

/-- `Actividad` model (models.py lines 86-111): a gradable activity under one
subject, with a name, a category code ("EX"/"TR"/"PR"/"OT") and a date
(abstracted to an integer day number). -/
structure Actividad where
  id : Nat
  materia : Nat
  nombre : String
  categoria : String
  fecha : Int
deriving Repr, DecidableEq

/-- `Nota` model (models.py lines 119-164): a grade linking one student to one
activity, with a decimal value (`DecimalField(max_digits=5, decimal_places=2)`)
modelled as an exact rational. -/
structure Nota where
  id : Nat
  alumno : Nat
  actividad : Nat
  nota : Rat
deriving Repr, DecidableEq

/-- The relational store: the four entity tables.  The student-subject join
table is folded into `Alumno.materias`. -/
structure DB where
  materias : List Materia
  alumnos : List Alumno
  actividades : List Actividad
  notas : List Nota
deriving Repr, DecidableEq

/-- The empty store (state of a fresh database). -/
def DB.empty : DB := ⟨[], [], [], []⟩

/-- `Materia.objects.filter(profesor=request.user)`: the subjects owned by
teacher `T` (views.py line 315 and similar). -/
def misMaterias (db : DB) (T : Nat) : List Materia :=
  db.materias.filter (fun m => m.profesor == T)

/-- Whether subject id `mid` belongs to teacher `T`'s subjects
(`materia__in=mis_materias` joins in views.py). -/
def materiaInScope (db : DB) (T mid : Nat) : Bool :=
  (misMaterias db T).any (fun m => m.id == mid)

/-- Unscoped lookup `Alumno.objects.get(id=...)` / `get_object_or_404(Alumno, id=...)`. -/
def findAlumno (db : DB) (i : Nat) : Option Alumno :=
  db.alumnos.find? (fun a => a.id == i)

/-- Unscoped lookup of a subject by id. -/
def findMateria (db : DB) (i : Nat) : Option Materia :=
  db.materias.find? (fun m => m.id == i)

/-- `get_object_or_404(Materia, id=..., profesor=request.user)`
(views.py lines 214, 230): lookup filtered by the owning teacher. -/
def findMateriaScoped (db : DB) (T i : Nat) : Option Materia :=
  db.materias.find? (fun m => m.id == i && m.profesor == T)

/-- Unscoped lookup `Actividad.objects.get(id=...)` (views.py line 352). -/
def findActividad (db : DB) (i : Nat) : Option Actividad :=
  db.actividades.find? (fun a => a.id == i)

/-- `get_object_or_404(Actividad, id=..., materia__in=mis_materias)`
(views.py lines 270, 287). -/
def findActividadScoped (db : DB) (T i : Nat) : Option Actividad :=
  db.actividades.find? (fun a => a.id == i && materiaInScope db T a.materia)

/-- The `actividad__materia__in=mis_materias` join condition on a grade: its
activity exists and that activity's subject is owned by teacher `T`. -/
def notaInScope (db : DB) (T : Nat) (n : Nota) : Bool :=
  match findActividad db n.actividad with
  | some a => materiaInScope db T a.materia
  | none => false

/-- `get_object_or_404(Nota, id=..., actividad__materia__in=mis_materias)`
(views.py lines 434, 459): the grade is in scope when its activity's subject
is owned by the teacher. -/
def findNotaScoped (db : DB) (T i : Nat) : Option Nota :=
  db.notas.find? (fun n => n.id == i && notaInScope db T n)

/-- `Alumno.objects.filter(materias__in=mis_materias)` membership: the student
is enrolled in at least one subject of teacher `T` (forms.py lines 180-182). -/
def alumnoEnScope (db : DB) (T : Nat) (al : Alumno) : Bool :=
  al.materias.any (fun mid => materiaInScope db T mid)

/-- `Nota.objects.filter(alumno_id=..., actividad_id=...).exists()`
(views.py lines 340-342). -/
def notaExiste (db : DB) (a act : Nat) : Bool :=
  db.notas.any (fun n => n.alumno == a && n.actividad == act)

/-- A submitted grade string, as the grade views see it:
`blank` for a missing/empty value, `nonNumeric` for a string `float()` and
`Decimal()` both reject, and `dec m p` for the finite decimal literal
`m / 10^p` written with `p` decimal places (e.g. "8.55" is `dec 855 2`). -/
inductive RawVal where
  | blank
  | nonNumeric
  | dec (m : Int) (p : Nat)
deriving Repr, DecidableEq

/-- The exact rational value of the decimal literal `m / 10^p`; both
`float(nota_str)` (views.py lines 331, 439) and the form's `Decimal`
conversion denote this number for finite decimal literals. -/
def decLitVal (m : Int) (p : Nat) : Rat :=
  mkRat m (10 ^ p)

/-- `Nota.clean` (models.py lines 135-142): raises a `ValidationError`
exactly when `self.nota < 0 or self.nota > 10`. -/
def notaRangeBad (v : Rat) : Bool :=
  decide (v < 0 ∨ 10 < v)

/-- Number of decimal digits of a natural number (1 for 0), as in the digit
tuple of a Python `Decimal`. -/
def numDigits (n : Nat) : Nat :=
  (Nat.toDigits 10 n).length

/-- Django's `DecimalValidator(max_digits=5, decimal_places=2)` applied to the
`Decimal` parsed from the literal `m / 10^p`: the digit count must be at most
5, the decimal places at most 2, and the whole digits at most 5 - 2 = 3. -/
def decimalValidatorOk (m : Int) (p : Nat) : Bool :=
  let digits := max (numDigits m.natAbs) p
  digits ≤ 5 && p ≤ 2 && digits - p ≤ 3

/-- Whether `nota_obj.full_clean()` succeeds in `editar_nota` (views.py
line 442) after `nota_obj.nota` was assigned the Python float `v ∈ [0, 10]`.
`Model.clean_fields` converts the float with
`DecimalField.to_python = Context(prec=5).create_decimal_from_float` and then
runs `DecimalValidator(5, 2)`.  For `v ∈ [0, 10]`: if `v` is a dyadic
rational with at most 2 decimal places (a multiple of 1/4, i.e. the reduced
denominator divides 4), the conversion is exact with at most 2 decimal places
and validation succeeds; otherwise the exact binary value of the float either
needs 3 or more decimal places (dyadic like 8.125) or is rounded to 5
significant digits (e.g. 8.1 becomes Decimal 8.1000), in both cases
exceeding 2 decimal places, so validation raises. -/
def floatCleanFieldsOk (v : Rat) : Bool :=
  4 % v.den == 0

/-- New auto primary key for a grade insert: one above the largest id. -/
def nextNotaId (db : DB) : Nat :=
  (db.notas.map Nota.id).foldr max 0 + 1

/-- `Nota.save` on a fresh instance (models.py lines 144-151) followed by the
SQL INSERT: `clean()` raises when the value is out of range; the storage
layer then enforces `unique_together = ("alumno", "actividad")` (models.py
line 161) and the two foreign keys.  `none` models a raised exception. -/
def notaSaveNew (db : DB) (a act : Nat) (v : Rat) : Option DB :=
  if notaRangeBad v then none
  else if notaExiste db a act then none
  else if (findAlumno db a).isNone || (findActividad db act).isNone then none
  else some { db with notas := db.notas ++ [⟨nextNotaId db, a, act, v⟩] }

/-- Replace the value of the grade with id `i`. -/
def updateNotaVal (db : DB) (i : Nat) (v : Rat) : DB :=
  { db with
    notas := db.notas.map (fun n => if n.id == i then { n with nota := v } else n) }

/-- `Nota.save` on an existing instance (models.py lines 144-151) followed by
the SQL UPDATE: `clean()` raises when the value is out of range, otherwise
the row is updated in place. -/
def notaSaveUpdate (db : DB) (i : Nat) (v : Rat) : Option DB :=
  if notaRangeBad v then none
  else some (updateNotaVal db i v)

/-- Structured rejection reasons surfaced by the grade views via
`messages.error` / form errors. -/
inductive Reason where
  /-- "La nota debe estar entre 0 y 10": value outside [0, 10]. -/
  | outOfRange
  /-- "No se puede calificar al alumno de la misma actividad dos veces":
  the (student, activity) pair already has a grade. -/
  | duplicate
  /-- "El alumno ... no esta inscrito en la materia ...": the student is not
  enrolled in the activity's subject. -/
  | notEnrolled
  /-- Form field error for a value that does not parse as a number. -/
  | invalidNumber
  /-- Form field error for a missing required field. -/
  | missingField
  /-- Form field error for a choice outside the field's queryset. -/
  | badChoice
  /-- `DecimalValidator` error: too many digits or decimal places. -/
  | badPrecision
  /-- "Error inesperado": exception raised by `form.save()` and caught
  (views.py lines 365-369). -/
  | unexpected
deriving Repr, DecidableEq

/-- Result of the grade-creation POST handled by `registro_de_notas`. -/
inductive CrearNotaResult where
  /-- The grade was validated and persisted; carries the new store. -/
  | saved (db2 : DB)
  /-- The request was rejected; the store is unchanged. -/
  | rejected (r : Reason)
deriving Repr, DecidableEq

/-- `NotaForm` validation (forms.py lines 157-210) for teacher `T`: the
`alumno` and `actividad` model-choice fields are required and restricted to
the teacher-scoped querysets set in `__init__`; the `nota` decimal field is
required and must parse within `max_digits=5, decimal_places=2`; then
`NotaForm.clean` checks enrollment, and `ModelForm._post_clean` runs the
model's `full_clean` (range check from `Nota.clean`, then `validate_unique`
for `unique_together`).  Errors are reported in that order; the view shows
the first failure. -/
def notaFormClean (db : DB) (T : Nat) (alumno_id actividad_id : Option Nat)
    (raw : RawVal) : Except Reason (Nat × Nat × Rat) :=
  match alumno_id with
  | none => .error .missingField
  | some a =>
    match findAlumno db a with
    | none => .error .badChoice
    | some al =>
      if !alumnoEnScope db T al then .error .badChoice
      else
        match actividad_id with
        | none => .error .missingField
        | some actId =>
          match findActividad db actId with
          | none => .error .badChoice
          | some act =>
            if !materiaInScope db T act.materia then .error .badChoice
            else
              match raw with
              | .blank => .error .missingField
              | .nonNumeric => .error .invalidNumber
              | .dec m p =>
                if !decimalValidatorOk m p then .error .badPrecision
                else if !(al.materias.contains act.materia) then .error .notEnrolled
                else if notaRangeBad (decLitVal m p) then .error .outOfRange
                else if notaExiste db a actId then .error .duplicate
                else .ok (a, actId, decLitVal m p)

/-- The form-and-save tail of the `registro_de_notas` POST branch
(views.py lines 362-379): validate `NotaForm`, then `form.save()` inside
`try/except Exception` (a save-time exception is caught and reported as
"Error inesperado"). -/
def notaFormStage (db : DB) (T : Nat) (alumno_id actividad_id : Option Nat)
    (raw : RawVal) : CrearNotaResult :=
  match notaFormClean db T alumno_id actividad_id raw with
  | .error r => .rejected r
  | .ok (a, act, v) =>
    match notaSaveNew db a act v with
    | none => .rejected .unexpected
    | some db2 => .saved db2

/-- The manual pre-validation step 1 of `registro_de_notas` (views.py lines
327-336): when the value is present and `float()` parses it, reject if it is
below 0 or above 10; a `ValueError`/`TypeError` is swallowed (`pass`). -/
def manualRangeFails (raw : RawVal) : Bool :=
  match raw with
  | .dec m p => decide (decLitVal m p < 0 ∨ 10 < decLitVal m p)
  | _ => false

/-- The POST branch of `registro_de_notas` (views.py lines 318-379) for
teacher `T`: manual range check (step 1), then, when both ids are present,
the duplicate check (step 2) and the enrollment check (step 3, skipped when
either object does not exist), then the `NotaForm` stage. -/
def registro_de_notas (db : DB) (T : Nat) (alumno_id actividad_id : Option Nat)
    (raw : RawVal) : CrearNotaResult :=
  if manualRangeFails raw then .rejected .outOfRange
  else
    match alumno_id, actividad_id with
    | some a, some act =>
      if notaExiste db a act then .rejected .duplicate
      else
        match findAlumno db a, findActividad db act with
        | some al, some ac =>
          if !(al.materias.contains ac.materia) then .rejected .notEnrolled
          else notaFormStage db T alumno_id actividad_id raw
        | _, _ => notaFormStage db T alumno_id actividad_id raw
    | _, _ => notaFormStage db T alumno_id actividad_id raw

/-- Result of the grade-update POST handled by `editar_nota`. -/
inductive EditarNotaResult where
  /-- `get_object_or_404` found no in-scope grade: HTTP 404. -/
  | notFound
  /-- The new value was stored; carries the new store. -/
  | updated (db2 : DB)
  /-- The request was rejected with a message; the store is unchanged. -/
  | rejected (r : Reason)
  /-- An exception escaped the handler (HTTP 500); the store is unchanged. -/
  | fatal
deriving Repr, DecidableEq

/-- The `editar_nota` view (views.py lines 423-452), POST branch: scoped
lookup, `float()` conversion (`ValueError`/`TypeError` caught as "Valor de
nota invalido"), the `0 <= nueva_nota <= 10` guard ("La nota debe estar
entre 0 y 10" otherwise), then `full_clean()` — whose `ValidationError`
(raised when the float-converted decimal breaks the 2-decimal-place limit,
see `floatCleanFieldsOk`) is NOT caught by the `except (ValueError,
TypeError)` clause and escapes as a server error — and finally `save()`. -/
def editar_nota (db : DB) (T nota_id : Nat) (raw : RawVal) : EditarNotaResult :=
  match findNotaScoped db T nota_id with
  | none => .notFound
  | some n =>
    match raw with
    | .dec m p =>
      if 0 ≤ decLitVal m p ∧ decLitVal m p ≤ 10 then
        if floatCleanFieldsOk (decLitVal m p) then
          match notaSaveUpdate db n.id (decLitVal m p) with
          | some db2 => .updated db2
          | none => .fatal
        else .fatal
      else .rejected .outOfRange
    | _ => .rejected .invalidNumber

/-- `eliminar_nota` (views.py lines 456-465), POST branch: scoped lookup then
delete; `none` models the 404 for a missing or out-of-scope grade. -/
def eliminar_nota (db : DB) (T nota_id : Nat) : Option DB :=
  match findNotaScoped db T nota_id with
  | none => none
  | some n =>
    some { db with notas := db.notas.filter (fun x => !(x.id == n.id)) }

/-- Result of an edit view: 404, a successful save carrying the new store, or
an invalid form (error message, store unchanged). -/
inductive ViewResult where
  | notFound
  | done (db2 : DB)
  | invalid
deriving Repr, DecidableEq

/-- The POST data a client can send to the subject views.  `MateriaForm` has
`fields = ["nombre"]` (forms.py line 117), so a client-supplied `profesor`
value is carried here only to show that the code never reads it. -/
structure MateriaPost where
  nombre : String
  profesor : Option Nat
deriving Repr, DecidableEq

/-- Python/Django whitespace stripping (`str.strip()`, applied by form
`CharField`s): drop leading and trailing whitespace.  Implemented over the
character list so that it evaluates by kernel reduction. -/
def strip (s : String) : String :=
  ⟨((s.data.dropWhile Char.isWhitespace).reverse.dropWhile Char.isWhitespace).reverse⟩

/-- `MateriaForm` validation: the single `nombre` field is a required
`CharField(max_length=100)`; Django strips surrounding whitespace and rejects
a blank or overlong value. -/
def materiaFormOk (nombre : String) : Bool :=
  !((strip nombre).data.isEmpty) && (strip nombre).length ≤ 100

/-- New auto primary key for a subject insert. -/
def nextMateriaId (db : DB) : Nat :=
  (db.materias.map Materia.id).foldr max 0 + 1

/-- `crear_materia` (views.py lines 183-203), POST branch: validate
`MateriaForm`, then `form.save(commit=False)`, assign
`materia.profesor = request.user`, and save.  The owner always comes from the
authenticated teacher `T`, never from the POST data. -/
def crear_materia (db : DB) (T : Nat) (post : MateriaPost) : Option DB :=
  if materiaFormOk post.nombre then
    some { db with
           materias := db.materias ++ [⟨nextMateriaId db, strip post.nombre, T⟩] }
  else none

/-- `editar_materia` (views.py lines 207-224), POST branch: owner-scoped
`get_object_or_404`, then `MateriaForm` validation and save. -/
def editar_materia (db : DB) (T materia_id : Nat) (post : MateriaPost) : ViewResult :=
  match findMateriaScoped db T materia_id with
  | none => .notFound
  | some m =>
    if materiaFormOk post.nombre then
      .done { db with
              materias := db.materias.map (fun x =>
                if x.id == m.id then { x with nombre := strip post.nombre } else x) }
    else .invalid

/-- The ids of the activities of subject `mid` (the rows cascade-deleted with
it). -/
def actividadesDeMateria (db : DB) (mid : Nat) : List Nat :=
  (db.actividades.filter (fun a => a.materia == mid)).map Actividad.id

/-- The cascade triggered by deleting subject `mid`: its activities go with it
(`Actividad.materia` has `on_delete=CASCADE`, models.py line 98), the grades
on those activities go with them (`Nota.actividad` has `on_delete=CASCADE`,
models.py line 121), and the student-subject join rows naming `mid` are
removed. -/
def cascadeDeleteMateria (db : DB) (mid : Nat) : DB :=
  { materias := db.materias.filter (fun x => !(x.id == mid))
    alumnos := db.alumnos.map (fun al =>
      { al with materias := al.materias.filter (fun i => !(i == mid)) })
    actividades := db.actividades.filter (fun a => !(a.materia == mid))
    notas := db.notas.filter
      (fun n => !((actividadesDeMateria db mid).contains n.actividad)) }

/-- `eliminar_materia` (views.py lines 228-236), POST branch: owner-scoped
`get_object_or_404` then `materia.delete()` with its cascade. -/
def eliminar_materia (db : DB) (T materia_id : Nat) : Option DB :=
  match findMateriaScoped db T materia_id with
  | none => none
  | some m => some (cascadeDeleteMateria db m.id)

/-- The POST data of the activity views, mirroring `ActividadForm`'s fields
`["materia", "nombre", "categoria", "fecha"]`. -/
structure ActividadPost where
  materia : Option Nat
  nombre : String
  categoria : String
  fecha : Option Int
deriving Repr, DecidableEq

/-- `ActividadForm` validation (forms.py lines 130-150) for teacher `T`: the
`materia` choice must lie in the teacher-scoped queryset, `nombre` is a
required `CharField(max_length=100)`, `categoria` must be one of the four
`CATEGORIAS` codes (models.py lines 90-95), and `fecha` is required. -/
def actividadFormClean (db : DB) (T : Nat) (post : ActividadPost) :
    Option (Nat × String × String × Int) :=
  match post.materia with
  | none => none
  | some mid =>
    if !materiaInScope db T mid then none
    else if (strip post.nombre).data.isEmpty || !((strip post.nombre).length ≤ 100 : Bool) then none
    else if !(["EX", "TR", "PR", "OT"].contains post.categoria) then none
    else
      match post.fecha with
      | none => none
      | some f => some (mid, strip post.nombre, post.categoria, f)

/-- New auto primary key for an activity insert. -/
def nextActividadId (db : DB) : Nat :=
  (db.actividades.map Actividad.id).foldr max 0 + 1

/-- `crear_actividad` (views.py lines 245-258), POST branch. -/
def crear_actividad (db : DB) (T : Nat) (post : ActividadPost) : Option DB :=
  match actividadFormClean db T post with
  | none => none
  | some (mid, nom, cat, f) =>
    some { db with
           actividades := db.actividades ++ [⟨nextActividadId db, mid, nom, cat, f⟩] }

/-- `editar_actividad` (views.py lines 262-280), POST branch: scoped
`get_object_or_404(Actividad, id=..., materia__in=mis_materias)`, then
`ActividadForm` validation and save. -/
def editar_actividad (db : DB) (T actividad_id : Nat) (post : ActividadPost) : ViewResult :=
  match findActividadScoped db T actividad_id with
  | none => .notFound
  | some act =>
    match actividadFormClean db T post with
    | none => .invalid
    | some (mid, nom, cat, f) =>
      .done { db with
              actividades := db.actividades.map (fun x =>
                if x.id == act.id then
                  { x with materia := mid, nombre := nom, categoria := cat, fecha := f }
                else x) }

/-- `eliminar_actividad` (views.py lines 284-293), POST branch: scoped lookup,
then `actividad.delete()` cascading to the grades on that activity. -/
def eliminar_actividad (db : DB) (T actividad_id : Nat) : Option DB :=
  match findActividadScoped db T actividad_id with
  | none => none
  | some act =>
    some { db with
           actividades := db.actividades.filter (fun x => !(x.id == act.id)),
           notas := db.notas.filter (fun n => !(n.actividad == act.id)) }

/-- The POST data of the student views, mirroring `AlumnoForm`'s fields
`["nombre", "correo", "materias"]`. -/
structure AlumnoPost where
  nombre : String
  correo : String
  materias : List Nat
deriving Repr, DecidableEq

/-- `AlumnoForm` validation (forms.py lines 66-105) for teacher `T`,
excluding `excludeId` from the email-uniqueness check when editing: `nombre`
is a required `CharField(max_length=100)`; `correo` is a required unique
email (the email-format check is abstracted away — `correo` values are
opaque strings here); `materias` is a required multiple choice whose every
member must lie in the teacher-scoped queryset
`Materia.objects.filter(profesor=user)`. -/
def alumnoFormClean (db : DB) (T : Nat) (excludeId : Option Nat)
    (post : AlumnoPost) : Option (String × String × List Nat) :=
  if (strip post.nombre).data.isEmpty || !((strip post.nombre).length ≤ 100 : Bool) then none
  else if (strip post.correo).data.isEmpty then none
  else if db.alumnos.any (fun a =>
      a.correo == strip post.correo &&
        (match excludeId with
         | some i => !(a.id == i)
         | none => true)) then none
  else if post.materias.isEmpty then none
  else if !(post.materias.all (fun mid => materiaInScope db T mid)) then none
  else some (strip post.nombre, strip post.correo, post.materias)

/-- New auto primary key for a student insert. -/
def nextAlumnoId (db : DB) : Nat :=
  (db.alumnos.map Alumno.id).foldr max 0 + 1

/-- `crear_alumno` (views.py lines 102-120), POST branch. -/
def crear_alumno (db : DB) (T : Nat) (post : AlumnoPost) : Option DB :=
  match alumnoFormClean db T none post with
  | none => none
  | some (nom, mail, ms) =>
    some { db with alumnos := db.alumnos ++ [⟨nextAlumnoId db, nom, mail, ms⟩] }

/-- `editar_alumno` (views.py lines 124-148), POST branch.  The lookup is
`get_object_or_404(Alumno, id=alumno_id)` — by raw id, WITHOUT any
ownership filter (unlike the subject/activity/grade views), so the teacher
argument plays no part in finding the record. -/
def editar_alumno (db : DB) (T alumno_id : Nat) (post : AlumnoPost) : ViewResult :=
  match findAlumno db alumno_id with
  | none => .notFound
  | some al =>
    match alumnoFormClean db T (some al.id) post with
    | none => .invalid
    | some (nom, mail, ms) =>
      .done { db with
              alumnos := db.alumnos.map (fun x =>
                if x.id == al.id then
                  { x with nombre := nom, correo := mail, materias := ms }
                else x) }

/-- `eliminar_alumno` (views.py lines 152-164), POST branch.  The lookup is
again `get_object_or_404(Alumno, id=alumno_id)` with no ownership filter;
the delete cascades to the student's grades (`Nota.alumno` has
`on_delete=CASCADE`). -/
def eliminar_alumno (db : DB) (_T alumno_id : Nat) : Option DB :=
  match findAlumno db alumno_id with
  | none => none
  | some al =>
    some { db with
           alumnos := db.alumnos.filter (fun x => !(x.id == al.id)),
           notas := db.notas.filter (fun n => !(n.alumno == al.id)) }

/-! ### Concrete fixtures used by witnesses and counterexamples -/

/-- Teacher 1 owns subject 1 "Math"; student 1 "Alice" is enrolled in it;
activity 1 "Midterm" belongs to it; no grades yet. -/
def dbA : DB :=
  ⟨[⟨1, "Math", 1⟩], [⟨1, "Alice", "a@x.com", [1]⟩],
   [⟨1, 1, "Midterm", "EX", 0⟩], []⟩

/-- `dbA` after Alice received the grade 8.5 on the Midterm (grade id 1). -/
def dbB : DB :=
  ⟨[⟨1, "Math", 1⟩], [⟨1, "Alice", "a@x.com", [1]⟩],
   [⟨1, 1, "Midterm", "EX", 0⟩], [⟨1, 1, 1, decLitVal 85 1⟩]⟩

/-- Teacher 1 owns subject 1 with activity 1; student 1 "Bob" exists but is
enrolled in no subject at all. -/
def dbC : DB :=
  ⟨[⟨1, "Math", 1⟩], [⟨1, "Bob", "b@x.com", []⟩],
   [⟨1, 1, "Midterm", "EX", 0⟩], []⟩

/-- Two teachers: teacher 1 owns subject 1, teacher 2 owns subject 2;
student 1 "Alice" is enrolled only in teacher 1's subject. -/
def dbT2 : DB :=
  ⟨[⟨1, "Math", 1⟩, ⟨2, "Fisica", 2⟩], [⟨1, "Alice", "a@x.com", [1]⟩], [], []⟩

/-! ### The operation step relation

One step of the system: any of the mutating view POST handlers run by any
teacher with any request data, or a direct call to `Nota.save` that bypasses
the forms and views (insert of a fresh instance or update of an existing
one).  Only steps that actually commit a new store are transitions. -/

/-- A single state transition of the store. -/
inductive Step : DB → DB → Prop where
  | crearMateria {db db2 : DB} (T : Nat) (post : MateriaPost)
      (h : crear_materia db T post = some db2) : Step db db2
  | editarMateria {db db2 : DB} (T mid : Nat) (post : MateriaPost)
      (h : editar_materia db T mid post = .done db2) : Step db db2
  | eliminarMateria {db db2 : DB} (T mid : Nat)
      (h : eliminar_materia db T mid = some db2) : Step db db2
  | crearAlumno {db db2 : DB} (T : Nat) (post : AlumnoPost)
      (h : crear_alumno db T post = some db2) : Step db db2
  | editarAlumno {db db2 : DB} (T aid : Nat) (post : AlumnoPost)
      (h : editar_alumno db T aid post = .done db2) : Step db db2
  | eliminarAlumno {db db2 : DB} (T aid : Nat)
      (h : eliminar_alumno db T aid = some db2) : Step db db2
  | crearActividad {db db2 : DB} (T : Nat) (post : ActividadPost)
      (h : crear_actividad db T post = some db2) : Step db db2
  | editarActividad {db db2 : DB} (T aid : Nat) (post : ActividadPost)
      (h : editar_actividad db T aid post = .done db2) : Step db db2
  | eliminarActividad {db db2 : DB} (T aid : Nat)
      (h : eliminar_actividad db T aid = some db2) : Step db db2
  | registroNotas {db db2 : DB} (T : Nat) (aid actid : Option Nat) (raw : RawVal)
      (h : registro_de_notas db T aid actid raw = .saved db2) : Step db db2
  | editarNota {db db2 : DB} (T nid : Nat) (raw : RawVal)
      (h : editar_nota db T nid raw = .updated db2) : Step db db2
  | eliminarNota {db db2 : DB} (T nid : Nat)
      (h : eliminar_nota db T nid = some db2) : Step db db2
  | directInsert {db db2 : DB} (a act : Nat) (v : Rat)
      (h : notaSaveNew db a act v = some db2) : Step db db2
  | directUpdate {db db2 : DB} (i : Nat) (v : Rat)
      (h : notaSaveUpdate db i v = some db2) : Step db db2

/-- A store reachable from the fresh database by any sequence of operations. -/
def Reachable (db : DB) : Prop :=
  Relation.ReflTransGen Step DB.empty db

/-- Every persisted grade value lies in `[0, 10]`. -/
def NotasEnRango (db : DB) : Prop :=
  ∀ n ∈ db.notas, 0 ≤ n.nota ∧ n.nota ≤ 10

/-! ### Inversion helpers -/

/-- A `false` result of the range validator means the value is in `[0, 10]`. -/
theorem notaRangeBad_false {v : Rat} (h : notaRangeBad v = false) :
    0 ≤ v ∧ v ≤ 10 := by
  unfold notaRangeBad at h
  have h2 := of_decide_eq_false h
  push_neg at h2
  exact h2

/-- Inversion of a successful grade insert: the value passed the range check
and the new store is the old one with the fresh grade appended. -/
theorem notaSaveNew_inv {db db2 : DB} {a act : Nat} {v : Rat}
    (h : notaSaveNew db a act v = some db2) :
    notaRangeBad v = false ∧
      db2.notas = db.notas ++ [⟨nextNotaId db, a, act, v⟩] := by
  unfold notaSaveNew at h
  split at h
  · exact absurd h (by simp)
  · split at h
    · exact absurd h (by simp)
    · split at h
      · exact absurd h (by simp)
      · rename_i h1 _ _
        refine ⟨by simpa using h1, ?_⟩
        injection h with h
        subst h
        rfl

/-- Inversion of a successful grade-value update: the value passed the range
check and the store is mapped in place. -/
theorem notaSaveUpdate_inv {db db2 : DB} {i : Nat} {v : Rat}
    (h : notaSaveUpdate db i v = some db2) :
    notaRangeBad v = false ∧ db2 = updateNotaVal db i v := by
  unfold notaSaveUpdate at h
  split at h
  · exact absurd h (by simp)
  · rename_i h1
    injection h with h
    exact ⟨by simpa using h1, h.symm⟩

/-- Inversion of a successful `NotaForm` validation: the submitted value was a
decimal literal and the returned value is its exact rational, in range. -/
theorem notaFormClean_ok_inv {db : DB} {T : Nat} {aid actid : Option Nat}
    {raw : RawVal} {a act : Nat} {v : Rat}
    (h : notaFormClean db T aid actid raw = .ok (a, act, v)) :
    ∃ m p, raw = .dec m p ∧ v = decLitVal m p ∧ notaRangeBad v = false := by
  unfold notaFormClean at h
  split at h
  · exact Except.noConfusion h
  split at h
  · exact Except.noConfusion h
  split at h
  · exact Except.noConfusion h
  split at h
  · exact Except.noConfusion h
  split at h
  · exact Except.noConfusion h
  split at h
  · exact Except.noConfusion h
  split at h
  · exact Except.noConfusion h
  · exact Except.noConfusion h
  rename_i m p
  split at h
  · exact Except.noConfusion h
  split at h
  · exact Except.noConfusion h
  split at h
  · exact Except.noConfusion h
  split at h
  · exact Except.noConfusion h
  rename_i hrange hdup
  injection h with h
  rw [Prod.mk.injEq, Prod.mk.injEq] at h
  obtain ⟨-, -, h3⟩ := h
  exact ⟨m, p, rfl, h3.symm, h3 ▸ (by simpa using hrange)⟩

/-- A `saved` result of the form stage comes from a validated form followed by
a successful insert. -/
theorem notaFormStage_saved_inv {db db2 : DB} {T : Nat} {aid actid : Option Nat}
    {raw : RawVal}
    (h : notaFormStage db T aid actid raw = .saved db2) :
    ∃ a act v, notaFormClean db T aid actid raw = .ok (a, act, v) ∧
      notaSaveNew db a act v = some db2 := by
  unfold notaFormStage at h
  split at h
  · exact absurd h (by simp)
  · rename_i a act v heq
    split at h
    · exact absurd h (by simp)
    · rename_i db3 hsave
      injection h with h
      exact ⟨a, act, v, heq, h ▸ hsave⟩

/-- A `saved` result of the grade-creation view comes from the form stage. -/
theorem registro_saved_inv {db db2 : DB} {T : Nat} {aid actid : Option Nat}
    {raw : RawVal}
    (h : registro_de_notas db T aid actid raw = .saved db2) :
    notaFormStage db T aid actid raw = .saved db2 := by
  unfold registro_de_notas at h
  split at h
  · exact absurd h (by simp)
  · split at h
    · split at h
      · exact absurd h (by simp)
      · split at h
        · split at h
          · exact absurd h (by simp)
          · exact h
        · exact h
    · exact h

/-! ### Claim theorems -/

/-- Claim C8: on every successful subject creation the stored owner is the
acting teacher `T` — the new row is literally appended with `profesor := T` —
and the result is identical for any other POST body with the same name,
whatever teacher the client-supplied `profesor` field names: the owner is
never taken from caller input. -/
theorem materia_owner_from_request_user (db db2 : DB) (T : Nat) (post : MateriaPost)
    (h : crear_materia db T post = some db2) :
    db2.materias = db.materias ++ [⟨nextMateriaId db, strip post.nombre, T⟩] ∧
    (∀ post2 : MateriaPost, post2.nombre = post.nombre →
      crear_materia db T post2 = some db2) := by
  unfold crear_materia at h
  split at h
  · rename_i hok
    injection h with h
    subst h
    refine ⟨rfl, ?_⟩
    intro post2 hn
    unfold crear_materia
    rw [hn, if_pos hok]
  · exact Option.noConfusion h

/-- Witness for C8: creating "Fisica" as teacher 7 appends a subject owned by
teacher 7, and a body claiming teacher 99 in its `profesor` field creates the
very same store. -/
theorem materia_owner_from_request_user_witness :
    (DB.mk [⟨1, "Math", 1⟩] [] [] []).materias ++
        [⟨2, "Fisica", 7⟩] =
      [⟨1, "Math", 1⟩, ⟨2, "Fisica", 7⟩] ∧
    crear_materia ⟨[⟨1, "Math", 1⟩], [], [], []⟩ 7 ⟨"Fisica", some 99⟩ =
      some ⟨[⟨1, "Math", 1⟩, ⟨2, "Fisica", 7⟩], [], [], []⟩ := by
  have h := materia_owner_from_request_user ⟨[⟨1, "Math", 1⟩], [], [], []⟩
    ⟨[⟨1, "Math", 1⟩, ⟨2, "Fisica", 7⟩], [], [], []⟩ 7 ⟨"Fisica", none⟩ (by decide)
  exact ⟨by decide, h.2 ⟨"Fisica", some 99⟩ rfl⟩

/-- Claim C4 (code bug): the student views look the student up by raw id with
no ownership filter.  In `dbT2`, student 1 is enrolled only in teacher 1's
subject — `alumnoEnScope` for teacher 2 is `false` — yet teacher 2's delete
removes the student and teacher 2's edit rewrites name, email and
enrollments; neither behaves as not-found. -/
theorem unscoped_student_mutation :
    alumnoEnScope dbT2 2 ⟨1, "Alice", "a@x.com", [1]⟩ = false ∧
    eliminar_alumno dbT2 2 1 =
      some ⟨[⟨1, "Math", 1⟩, ⟨2, "Fisica", 2⟩], [], [], []⟩ ∧
    editar_alumno dbT2 2 1 ⟨"Eve", "e@x.com", [2]⟩ =
      .done ⟨[⟨1, "Math", 1⟩, ⟨2, "Fisica", 2⟩], [⟨1, "Eve", "e@x.com", [2]⟩], [], []⟩ := by
  exact ⟨by decide, by decide, by decide⟩

/-- Claim C9 (code bug): updating an in-scope grade with the in-range value
8.555 (and even with 9.1) ends in `fatal` — the `ValidationError` raised by
`full_clean()` on the float-converted value escapes the
`except (ValueError, TypeError)` handler — while non-numeric and out-of-range
values are rejected normally. -/
theorem editar_nota_precision_fatal :
    editar_nota dbB 1 1 (.dec 8555 3) = .fatal ∧
    (0 ≤ decLitVal 8555 3 ∧ decLitVal 8555 3 ≤ 10) ∧
    editar_nota dbB 1 1 (.dec 91 1) = .fatal ∧
    editar_nota dbB 1 1 .nonNumeric = .rejected .invalidNumber ∧
    editar_nota dbB 1 1 (.dec 11 0) = .rejected .outOfRange := by
  exact ⟨by decide, by decide, by decide, by decide, by decide⟩

/-- Counterexample to C1 as stated: 8.555 lies inside `[0, 10]` but the
creation request is rejected (with the precision reason) rather than
accepted, so "accepted iff 0 ≤ v ≤ 10" fails in the if direction. -/
theorem in_range_value_not_accepted :
    (0 ≤ decLitVal 8555 3 ∧ decLitVal 8555 3 ≤ 10) ∧
    registro_de_notas dbA 1 (some 1) (some 1) (.dec 8555 3) =
      .rejected .badPrecision ∧
    ∀ db2, registro_de_notas dbA 1 (some 1) (some 1) (.dec 8555 3) ≠ .saved db2 := by
  have he : registro_de_notas dbA 1 (some 1) (some 1) (.dec 8555 3) =
      .rejected .badPrecision := by decide
  refine ⟨by decide, he, ?_⟩
  intro db2 hcon
  rw [he] at hcon
  exact CrearNotaResult.noConfusion hcon

/-- Counterexample to C2 as stated: the (student 1, activity 1) pair is
already graded in `dbB`, yet a second creation attempt with the value 11 is
rejected with the out-of-range reason, not the duplicate reason. -/
theorem duplicate_pair_range_reason :
    notaExiste dbB 1 1 = true ∧
    registro_de_notas dbB 1 (some 1) (some 1) (.dec 11 0) =
      .rejected .outOfRange ∧
    registro_de_notas dbB 1 (some 1) (some 1) (.dec 11 0) ≠
      .rejected .duplicate := by
  exact ⟨by decide, by decide, by decide⟩

/-- Counterexample to C3 as stated: in `dbC` student 1 exists but is not
enrolled in activity 1's subject, yet the creation attempt with the value 11
is rejected with the out-of-range reason, not the not-enrolled reason. -/
theorem not_enrolled_range_reason :
    findAlumno dbC 1 = some ⟨1, "Bob", "b@x.com", []⟩ ∧
    findActividad dbC 1 = some ⟨1, 1, "Midterm", "EX", 0⟩ ∧
    registro_de_notas dbC 1 (some 1) (some 1) (.dec 11 0) =
      .rejected .outOfRange ∧
    registro_de_notas dbC 1 (some 1) (some 1) (.dec 11 0) ≠
      .rejected .notEnrolled := by
  exact ⟨by decide, by decide, by decide, by decide⟩

/-- Counterexample to C5 as stated: for a request whose value does not parse
as a number but whose (student, activity) pair is already graded, the
reported rejection is the duplicate check, not invalid-number. -/
theorem unparseable_value_duplicate_reason :
    notaExiste dbB 1 1 = true ∧
    registro_de_notas dbB 1 (some 1) (some 1) .nonNumeric =
      .rejected .duplicate ∧
    registro_de_notas dbB 1 (some 1) (some 1) .nonNumeric ≠
      .rejected .invalidNumber := by
  exact ⟨by decide, by decide, by decide⟩

/-- Claim C1 (amended): a submitted value is accepted only if it is a decimal
number in `[0, 10]`; every parseable value outside that range is rejected
with the out-of-range reason, on creation and on update alike (in-range
values may additionally fail the field's precision validation, so the
converse does not hold). -/
theorem grade_range_validation (db : DB) (T : Nat) :
    (∀ aid actid m p, (decLitVal m p < 0 ∨ 10 < decLitVal m p) →
      registro_de_notas db T aid actid (.dec m p) = .rejected .outOfRange) ∧
    (∀ nid n m p, findNotaScoped db T nid = some n →
      (decLitVal m p < 0 ∨ 10 < decLitVal m p) →
      editar_nota db T nid (.dec m p) = .rejected .outOfRange) ∧
    (∀ aid actid raw db2, registro_de_notas db T aid actid raw = .saved db2 →
      ∃ m p, raw = .dec m p ∧ 0 ≤ decLitVal m p ∧ decLitVal m p ≤ 10) ∧
    (∀ nid raw db2, editar_nota db T nid raw = .updated db2 →
      ∃ m p, raw = .dec m p ∧ 0 ≤ decLitVal m p ∧ decLitVal m p ≤ 10) := by
  refine ⟨?_, ?_, ?_, ?_⟩
  · intro aid actid m p hout
    have hm : manualRangeFails (.dec m p) = true := by
      unfold manualRangeFails
      exact decide_eq_true hout
    unfold registro_de_notas
    rw [if_pos hm]
  · intro nid n m p hfind hout
    have hnot : ¬(0 ≤ decLitVal m p ∧ decLitVal m p ≤ 10) := by
      rcases hout with h | h
      · exact fun hc => absurd hc.1 (not_le.mpr h)
      · exact fun hc => absurd hc.2 (not_le.mpr h)
    simp [editar_nota, hfind, hnot]
  · intro aid actid raw db2 h
    obtain ⟨a2, act2, v, hclean, hsave⟩ := notaFormStage_saved_inv (registro_saved_inv h)
    obtain ⟨m, p, hraw, hv, hrange⟩ := notaFormClean_ok_inv hclean
    obtain ⟨h0, h10⟩ := notaRangeBad_false (hv ▸ hrange)
    exact ⟨m, p, hraw, hv ▸ h0, hv ▸ h10⟩
  · intro nid raw db2 h
    unfold editar_nota at h
    split at h
    · exact EditarNotaResult.noConfusion h
    · split at h
      · rename_i m p
        split at h
        · rename_i hin
          exact ⟨m, p, rfl, hin.1, hin.2⟩
        · exact EditarNotaResult.noConfusion h
      · exact EditarNotaResult.noConfusion h

/-- Witness for C1: the out-of-range values 11 (creation) and -5 (update) are
rejected with the out-of-range reason on concrete stores. -/
theorem grade_range_validation_witness :
    registro_de_notas dbA 1 (some 1) (some 1) (.dec 11 0) =
      .rejected .outOfRange ∧
    editar_nota dbB 1 1 (.dec (-5) 0) = .rejected .outOfRange := by
  exact ⟨(grade_range_validation dbA 1).1 (some 1) (some 1) 11 0 (by decide),
    (grade_range_validation dbB 1).2.1 1 ⟨1, 1, 1, decLitVal 85 1⟩ (-5) 0
      (by decide) (by decide)⟩

/-- Claim C2 (amended): a creation attempt for an already-graded
(student, activity) pair is always rejected — never saved, so the existing
grade is untouched — for every submitted value; the reported reason is
duplicate-grade whenever the value is not a parseable number outside
`[0, 10]` (in that case the out-of-range rejection fires first). -/
theorem duplicate_pair_always_rejected (db : DB) (T a act : Nat) (raw : RawVal)
    (hdup : notaExiste db a act = true) :
    (∃ r, registro_de_notas db T (some a) (some act) raw = .rejected r) ∧
    (∀ db2, registro_de_notas db T (some a) (some act) raw ≠ .saved db2) ∧
    (manualRangeFails raw = false →
      registro_de_notas db T (some a) (some act) raw = .rejected .duplicate) := by
  by_cases hmr : manualRangeFails raw = true
  · have he : registro_de_notas db T (some a) (some act) raw =
        .rejected .outOfRange := by
      unfold registro_de_notas
      rw [if_pos hmr]
    refine ⟨⟨.outOfRange, he⟩, ?_, ?_⟩
    · intro db2 hcon
      rw [he] at hcon
      exact CrearNotaResult.noConfusion hcon
    · intro hmf
      rw [hmf] at hmr
      exact Bool.noConfusion hmr
  · have hmf : manualRangeFails raw = false := by simpa using hmr
    have he : registro_de_notas db T (some a) (some act) raw =
        .rejected .duplicate := by
      simp [registro_de_notas, hmf, hdup]
    refine ⟨⟨.duplicate, he⟩, ?_, fun _ => he⟩
    intro db2 hcon
    rw [he] at hcon
    exact CrearNotaResult.noConfusion hcon

/-- Witness for C2: in `dbB` (Alice already graded on the Midterm) a second
attempt with the valid value 9.5 is rejected as duplicate. -/
theorem duplicate_pair_always_rejected_witness :
    (∃ r, registro_de_notas dbB 1 (some 1) (some 1) (.dec 95 1) = .rejected r) ∧
    registro_de_notas dbB 1 (some 1) (some 1) (.dec 95 1) =
      .rejected .duplicate := by
  have h := duplicate_pair_always_rejected dbB 1 1 1 (.dec 95 1) (by decide)
  exact ⟨h.1, h.2.2 (by decide)⟩

/-- Claim C3 (amended): when the student exists but is not enrolled in the
activity's subject, a creation attempt is always rejected — never saved — for
every submitted value; the reported reason is not-enrolled whenever the value
is not a parseable out-of-range number and the pair is not already graded
(those two rejections fire first). -/
theorem not_enrolled_always_rejected (db : DB) (T a act : Nat) (al : Alumno)
    (ac : Actividad) (raw : RawVal)
    (hal : findAlumno db a = some al) (hac : findActividad db act = some ac)
    (henr : al.materias.contains ac.materia = false) :
    (∃ r, registro_de_notas db T (some a) (some act) raw = .rejected r) ∧
    (∀ db2, registro_de_notas db T (some a) (some act) raw ≠ .saved db2) ∧
    (manualRangeFails raw = false → notaExiste db a act = false →
      registro_de_notas db T (some a) (some act) raw = .rejected .notEnrolled) := by
  have henr2 : ac.materia ∉ al.materias := by simpa using henr
  have hrej : ∃ r, registro_de_notas db T (some a) (some act) raw = .rejected r := by
    by_cases hmr : manualRangeFails raw = true
    · refine ⟨.outOfRange, ?_⟩
      unfold registro_de_notas
      rw [if_pos hmr]
    · have hmf : manualRangeFails raw = false := by simpa using hmr
      by_cases hdup : notaExiste db a act = true
      · exact ⟨.duplicate, by simp [registro_de_notas, hmf, hdup]⟩
      · have hdupf : notaExiste db a act = false := by simpa using hdup
        exact ⟨.notEnrolled, by simp [registro_de_notas, hmf, hdupf, hal, hac, henr2]⟩
  obtain ⟨r, hr⟩ := hrej
  refine ⟨⟨r, hr⟩, ?_, ?_⟩
  · intro db2 hcon
    rw [hr] at hcon
    exact CrearNotaResult.noConfusion hcon
  · intro hmf hdupf
    simp [registro_de_notas, hmf, hdupf, hal, hac, henr2]

/-- Witness for C3: in `dbC` (Bob not enrolled in Math) the valid value 9.5
is rejected as not-enrolled. -/
theorem not_enrolled_always_rejected_witness :
    registro_de_notas dbC 1 (some 1) (some 1) (.dec 95 1) =
      .rejected .notEnrolled := by
  have h := not_enrolled_always_rejected dbC 1 1 1 ⟨1, "Bob", "b@x.com", []⟩
    ⟨1, 1, "Midterm", "EX", 0⟩ (.dec 95 1) (by decide) (by decide) (by decide)
  exact h.2.2 (by decide) (by decide)

/-- Claim C5 (amended): the creation checks run in the order range (only when
the value parses as a number), duplicate, enrollment, and then form
validation, where an unparseable value is rejected as invalid-number;
consequently a request whose value does not parse but whose pair is already
graded reports the duplicate reason, not invalid-number. -/
theorem check_order_precedence (db : DB) (T a act : Nat) :
    (∀ m p, (decLitVal m p < 0 ∨ 10 < decLitVal m p) →
      registro_de_notas db T (some a) (some act) (.dec m p) =
        .rejected .outOfRange) ∧
    (∀ raw, manualRangeFails raw = false → notaExiste db a act = true →
      registro_de_notas db T (some a) (some act) raw = .rejected .duplicate) ∧
    (∀ raw al ac, manualRangeFails raw = false → notaExiste db a act = false →
      findAlumno db a = some al → findActividad db act = some ac →
      al.materias.contains ac.materia = false →
      registro_de_notas db T (some a) (some act) raw = .rejected .notEnrolled) ∧
    (∀ al ac, notaExiste db a act = false →
      findAlumno db a = some al → findActividad db act = some ac →
      al.materias.contains ac.materia = true →
      alumnoEnScope db T al = true → materiaInScope db T ac.materia = true →
      registro_de_notas db T (some a) (some act) .nonNumeric =
        .rejected .invalidNumber) := by
  refine ⟨?_, ?_, ?_, ?_⟩
  · intro m p hout
    have hm : manualRangeFails (.dec m p) = true := by
      unfold manualRangeFails
      exact decide_eq_true hout
    unfold registro_de_notas
    rw [if_pos hm]
  · intro raw hmf hdup
    simp [registro_de_notas, hmf, hdup]
  · intro raw al ac hmf hdupf hal hac henr
    have henr2 : ac.materia ∉ al.materias := by simpa using henr
    simp [registro_de_notas, hmf, hdupf, hal, hac, henr2]
  · intro al ac hdupf hal hac hcont hscope hmscope
    have hcont2 : ac.materia ∈ al.materias := by simpa using hcont
    simp [registro_de_notas, manualRangeFails, notaFormStage, notaFormClean,
      hdupf, hal, hac, hcont2, hscope, hmscope]

/-- Witness for C5: each of the four precedence facts evaluated on a concrete
store and request. -/
theorem check_order_precedence_witness :
    registro_de_notas dbB 1 (some 1) (some 1) (.dec 11 0) =
      .rejected .outOfRange ∧
    registro_de_notas dbB 1 (some 1) (some 1) (.dec 9 0) =
      .rejected .duplicate ∧
    registro_de_notas dbC 1 (some 1) (some 1) (.dec 9 0) =
      .rejected .notEnrolled ∧
    registro_de_notas dbA 1 (some 1) (some 1) .nonNumeric =
      .rejected .invalidNumber := by
  refine ⟨(check_order_precedence dbB 1 1 1).1 11 0 (by decide),
    (check_order_precedence dbB 1 1 1).2.1 (.dec 9 0) (by decide) (by decide),
    (check_order_precedence dbC 1 1 1).2.2.1 (.dec 9 0) ⟨1, "Bob", "b@x.com", []⟩
      ⟨1, 1, "Midterm", "EX", 0⟩ (by decide) (by decide) (by decide) (by decide)
      (by decide),
    (check_order_precedence dbA 1 1 1).2.2.2 ⟨1, "Alice", "a@x.com", [1]⟩
      ⟨1, 1, "Midterm", "EX", 0⟩ (by decide) (by decide) (by decide) (by decide)
      (by decide) (by decide)⟩

/-- Claim C6: for an id of a Subject, Activity, or Grade every occurrence of
which lies outside teacher `T`'s ownership scope, the edit and delete views
return not-found (and hence carry no new store: the entity is untouched). -/
theorem out_of_scope_edit_delete_not_found (db : DB) (T : Nat) :
    (∀ mid post, (∃ m ∈ db.materias, m.id = mid) →
      (∀ m ∈ db.materias, m.id = mid → m.profesor ≠ T) →
      editar_materia db T mid post = .notFound ∧
        eliminar_materia db T mid = none) ∧
    (∀ aid post, (∃ a ∈ db.actividades, a.id = aid) →
      (∀ a ∈ db.actividades, a.id = aid → materiaInScope db T a.materia = false) →
      editar_actividad db T aid post = .notFound ∧
        eliminar_actividad db T aid = none) ∧
    (∀ nid raw, (∃ n ∈ db.notas, n.id = nid) →
      (∀ n ∈ db.notas, n.id = nid → notaInScope db T n = false) →
      editar_nota db T nid raw = .notFound ∧ eliminar_nota db T nid = none) := by
  refine ⟨?_, ?_, ?_⟩
  · intro mid post hex hout
    have hnone : findMateriaScoped db T mid = none := by
      apply List.find?_eq_none.mpr
      intro m hm hp
      simp only [Bool.and_eq_true, beq_iff_eq] at hp
      exact hout m hm hp.1 hp.2
    constructor
    · unfold editar_materia
      rw [hnone]
    · unfold eliminar_materia
      rw [hnone]
  · intro aid post hex hout
    have hnone : findActividadScoped db T aid = none := by
      apply List.find?_eq_none.mpr
      intro a ha hp
      simp only [Bool.and_eq_true, beq_iff_eq] at hp
      exact absurd hp.2 (by rw [hout a ha hp.1]; exact Bool.false_ne_true)
    constructor
    · unfold editar_actividad
      rw [hnone]
    · unfold eliminar_actividad
      rw [hnone]
  · intro nid raw hex hout
    have hnone : findNotaScoped db T nid = none := by
      apply List.find?_eq_none.mpr
      intro n hn hp
      simp only [Bool.and_eq_true, beq_iff_eq] at hp
      exact absurd hp.2 (by rw [hout n hn hp.1]; exact Bool.false_ne_true)
    constructor
    · unfold editar_nota
      rw [hnone]
    · unfold eliminar_nota
      rw [hnone]

/-- Witness for C6: teacher 2 edits/deletes subject 1, activity 1 and grade 1
of `dbB`, all owned by teacher 1, and gets not-found each time. -/
theorem out_of_scope_edit_delete_not_found_witness :
    (editar_materia dbB 2 1 ⟨"X", none⟩ = .notFound ∧
      eliminar_materia dbB 2 1 = none) ∧
    (editar_actividad dbB 2 1 ⟨some 1, "Y", "EX", some 0⟩ = .notFound ∧
      eliminar_actividad dbB 2 1 = none) ∧
    (editar_nota dbB 2 1 (.dec 9 0) = .notFound ∧
      eliminar_nota dbB 2 1 = none) := by
  have h := out_of_scope_edit_delete_not_found dbB 2
  exact ⟨h.1 1 ⟨"X", none⟩ (by decide) (by decide),
    h.2.1 1 ⟨some 1, "Y", "EX", some 0⟩ (by decide) (by decide),
    h.2.2 1 (.dec 9 0) (by decide) (by decide)⟩

/-- Claim C7: a successful subject delete removes every activity of that
subject and every grade on those activities, and — given the referential
integrity of the pre-state — leaves no grade whose activity no longer
exists. -/
theorem materia_delete_cascade (db db2 : DB) (T mid : Nat)
    (hdel : eliminar_materia db T mid = some db2)
    (hint : ∀ n ∈ db.notas, ∃ a ∈ db.actividades, a.id = n.actividad) :
    (∀ a ∈ db2.actividades, a.materia ≠ mid) ∧
    (∀ n ∈ db2.notas, ∀ a ∈ db.actividades, a.id = n.actividad →
      a.materia ≠ mid) ∧
    (∀ n ∈ db2.notas, ∃ a ∈ db2.actividades, a.id = n.actividad) := by
  have hdb2 : db2 = cascadeDeleteMateria db mid := by
    unfold eliminar_materia at hdel
    split at hdel
    · exact Option.noConfusion hdel
    · rename_i m heq
      have hp := List.find?_some heq
      simp only [Bool.and_eq_true, beq_iff_eq] at hp
      injection hdel with hdel
      rw [← hdel, hp.1]
  subst hdb2
  have hkept : ∀ n ∈ (cascadeDeleteMateria db mid).notas,
      n ∈ db.notas ∧ n.actividad ∉ actividadesDeMateria db mid := by
    intro n hn
    have h1 := List.mem_filter.mp hn
    refine ⟨h1.1, ?_⟩
    simpa using h1.2
  have hdeadOf : ∀ a ∈ db.actividades, a.materia = mid →
      a.id ∈ actividadesDeMateria db mid := by
    intro a ha hmat
    exact List.mem_map_of_mem Actividad.id
      (List.mem_filter.mpr ⟨ha, by simpa using hmat⟩)
  refine ⟨?_, ?_, ?_⟩
  · intro a ha
    have h2 := (List.mem_filter.mp ha).2
    simpa using h2
  · intro n hn a ha haid hmat
    exact (hkept n hn).2 (haid ▸ hdeadOf a ha hmat)
  · intro n hn
    obtain ⟨a, ha, haid⟩ := hint n (hkept n hn).1
    have hmat : ¬ a.materia = mid :=
      fun hmat => (hkept n hn).2 (haid ▸ hdeadOf a ha hmat)
    exact ⟨a, List.mem_filter.mpr ⟨ha, by simpa using hmat⟩, haid⟩

/-- Witness for C7: deleting subject 1 of `dbB` as its owner leaves no
activity of subject 1, no grade, and no orphaned grade. -/
theorem materia_delete_cascade_witness :
    (∀ a ∈ (DB.mk [] [⟨1, "Alice", "a@x.com", []⟩] [] []).actividades,
      a.materia ≠ 1) ∧
    (∀ n ∈ (DB.mk [] [⟨1, "Alice", "a@x.com", []⟩] [] []).notas,
      ∃ a ∈ (DB.mk [] [⟨1, "Alice", "a@x.com", []⟩] [] []).actividades,
        a.id = n.actividad) := by
  have h := materia_delete_cascade dbB
    (DB.mk [] [⟨1, "Alice", "a@x.com", []⟩] [] []) 1 1 (by decide) (by decide)
  exact ⟨h.1, h.2.2⟩

/-! ### Preservation of the grade-range invariant (C10) -/

/-- Subject creation does not touch the grades table. -/
theorem crear_materia_notas {db db2 : DB} {T : Nat} {post : MateriaPost}
    (h : crear_materia db T post = some db2) : db2.notas = db.notas := by
  unfold crear_materia at h
  split at h
  · injection h with h
    subst h
    rfl
  · exact Option.noConfusion h

/-- Subject edit does not touch the grades table. -/
theorem editar_materia_notas {db db2 : DB} {T mid : Nat} {post : MateriaPost}
    (h : editar_materia db T mid post = .done db2) : db2.notas = db.notas := by
  unfold editar_materia at h
  split at h
  · exact ViewResult.noConfusion h
  · split at h
    · injection h with h
      subst h
      rfl
    · exact ViewResult.noConfusion h

/-- Subject deletion only removes grade rows. -/
theorem eliminar_materia_notas {db db2 : DB} {T mid : Nat}
    (h : eliminar_materia db T mid = some db2) :
    ∀ n ∈ db2.notas, n ∈ db.notas := by
  unfold eliminar_materia at h
  split at h
  · exact Option.noConfusion h
  · injection h with h
    subst h
    intro n hn
    exact (List.mem_filter.mp hn).1

/-- Student creation does not touch the grades table. -/
theorem crear_alumno_notas {db db2 : DB} {T : Nat} {post : AlumnoPost}
    (h : crear_alumno db T post = some db2) : db2.notas = db.notas := by
  unfold crear_alumno at h
  split at h
  · exact Option.noConfusion h
  · injection h with h
    subst h
    rfl

/-- Student edit does not touch the grades table. -/
theorem editar_alumno_notas {db db2 : DB} {T aid : Nat} {post : AlumnoPost}
    (h : editar_alumno db T aid post = .done db2) : db2.notas = db.notas := by
  unfold editar_alumno at h
  split at h
  · exact ViewResult.noConfusion h
  · split at h
    · exact ViewResult.noConfusion h
    · injection h with h
      subst h
      rfl

/-- Student deletion only removes grade rows. -/
theorem eliminar_alumno_notas {db db2 : DB} {T aid : Nat}
    (h : eliminar_alumno db T aid = some db2) :
    ∀ n ∈ db2.notas, n ∈ db.notas := by
  unfold eliminar_alumno at h
  split at h
  · exact Option.noConfusion h
  · injection h with h
    subst h
    intro n hn
    exact (List.mem_filter.mp hn).1

/-- Activity creation does not touch the grades table. -/
theorem crear_actividad_notas {db db2 : DB} {T : Nat} {post : ActividadPost}
    (h : crear_actividad db T post = some db2) : db2.notas = db.notas := by
  unfold crear_actividad at h
  split at h
  · exact Option.noConfusion h
  · injection h with h
    subst h
    rfl

/-- Activity edit does not touch the grades table. -/
theorem editar_actividad_notas {db db2 : DB} {T aid : Nat} {post : ActividadPost}
    (h : editar_actividad db T aid post = .done db2) : db2.notas = db.notas := by
  unfold editar_actividad at h
  split at h
  · exact ViewResult.noConfusion h
  · split at h
    · exact ViewResult.noConfusion h
    · injection h with h
      subst h
      rfl

/-- Activity deletion only removes grade rows. -/
theorem eliminar_actividad_notas {db db2 : DB} {T aid : Nat}
    (h : eliminar_actividad db T aid = some db2) :
    ∀ n ∈ db2.notas, n ∈ db.notas := by
  unfold eliminar_actividad at h
  split at h
  · exact Option.noConfusion h
  · injection h with h
    subst h
    intro n hn
    exact (List.mem_filter.mp hn).1

/-- Grade deletion only removes grade rows. -/
theorem eliminar_nota_notas {db db2 : DB} {T nid : Nat}
    (h : eliminar_nota db T nid = some db2) :
    ∀ n ∈ db2.notas, n ∈ db.notas := by
  unfold eliminar_nota at h
  split at h
  · exact Option.noConfusion h
  · injection h with h
    subst h
    intro n hn
    exact (List.mem_filter.mp hn).1

/-- Inversion of a successful grade-value update through `editar_nota`: the
store was updated in place with a value that passed the range check. -/
theorem editar_nota_updated_inv {db db2 : DB} {T nid : Nat} {raw : RawVal}
    (h : editar_nota db T nid raw = .updated db2) :
    ∃ i v, notaRangeBad v = false ∧ db2 = updateNotaVal db i v := by
  unfold editar_nota at h
  split at h
  · exact EditarNotaResult.noConfusion h
  · split at h
    · split at h
      · split at h
        · split at h
          · rename_i hupd
            injection h with h
            obtain ⟨hr, hdb⟩ := notaSaveUpdate_inv hupd
            exact ⟨_, _, hr, h ▸ hdb⟩
          · exact EditarNotaResult.noConfusion h
        · exact EditarNotaResult.noConfusion h
      · exact EditarNotaResult.noConfusion h
    · exact EditarNotaResult.noConfusion h

/-- An in-place value update with an in-range value preserves the range
invariant. -/
theorem updateNotaVal_preserves {db : DB} {i : Nat} {v : Rat}
    (hv : notaRangeBad v = false) (hinv : NotasEnRango db) :
    NotasEnRango (updateNotaVal db i v) := by
  intro n hn
  unfold updateNotaVal at hn
  obtain ⟨n0, hn0, heq⟩ := List.mem_map.mp hn
  subst heq
  split
  · exact notaRangeBad_false hv
  · exact hinv n0 hn0

/-- A fresh insert with a value that passed `Nota.clean` preserves the range
invariant. -/
theorem notaSaveNew_preserves {db db2 : DB} {a act : Nat} {v : Rat}
    (h : notaSaveNew db a act v = some db2) (hinv : NotasEnRango db) :
    NotasEnRango db2 := by
  obtain ⟨hv, hnew⟩ := notaSaveNew_inv h
  intro n hn
  rw [hnew] at hn
  rcases List.mem_append.mp hn with hn | hn
  · exact hinv n hn
  · rw [List.mem_singleton.mp hn]
    exact notaRangeBad_false hv

/-- Every single operation preserves the range invariant. -/
theorem step_preserves {db db2 : DB} (h : Step db db2) (hinv : NotasEnRango db) :
    NotasEnRango db2 := by
  cases h with
  | crearMateria T post h =>
    intro n hn
    rw [crear_materia_notas h] at hn
    exact hinv n hn
  | editarMateria T mid post h =>
    intro n hn
    rw [editar_materia_notas h] at hn
    exact hinv n hn
  | eliminarMateria T mid h =>
    intro n hn
    exact hinv n (eliminar_materia_notas h n hn)
  | crearAlumno T post h =>
    intro n hn
    rw [crear_alumno_notas h] at hn
    exact hinv n hn
  | editarAlumno T aid post h =>
    intro n hn
    rw [editar_alumno_notas h] at hn
    exact hinv n hn
  | eliminarAlumno T aid h =>
    intro n hn
    exact hinv n (eliminar_alumno_notas h n hn)
  | crearActividad T post h =>
    intro n hn
    rw [crear_actividad_notas h] at hn
    exact hinv n hn
  | editarActividad T aid post h =>
    intro n hn
    rw [editar_actividad_notas h] at hn
    exact hinv n hn
  | eliminarActividad T aid h =>
    intro n hn
    exact hinv n (eliminar_actividad_notas h n hn)
  | registroNotas T aid actid raw h =>
    obtain ⟨a, act, v, hclean, hsave⟩ :=
      notaFormStage_saved_inv (registro_saved_inv h)
    exact notaSaveNew_preserves hsave hinv
  | editarNota T nid raw h =>
    obtain ⟨i, v, hv, hdb⟩ := editar_nota_updated_inv h
    rw [hdb]
    exact updateNotaVal_preserves hv hinv
  | eliminarNota T nid h =>
    intro n hn
    exact hinv n (eliminar_nota_notas h n hn)
  | directInsert a act v h =>
    exact notaSaveNew_preserves h hinv
  | directUpdate i v h =>
    obtain ⟨hv, hdb⟩ := notaSaveUpdate_inv h
    rw [hdb]
    exact updateNotaVal_preserves hv hinv

/-- Claim C10: every store reachable from the fresh database by any sequence
of operations — the view handlers and direct `Nota.save` calls that bypass
forms and views alike — has every persisted grade value in `[0, 10]`,
because every path that persists a `Nota` runs the `Nota.clean` range check
inside `Nota.save` (or the in-range guard of `editar_nota`) before writing. -/
theorem reachable_notas_in_range (db : DB) (h : Reachable db) :
    NotasEnRango db := by
  unfold Reachable at h
  induction h with
  | refl =>
    intro n hn
    exact absurd hn (List.not_mem_nil n)
  | tail hsteps hstep ih =>
    exact step_preserves hstep ih

/-- Witness for C10: the store holding one subject created through
`crear_materia` is reachable, and its (empty) grades table satisfies the
invariant. -/
theorem reachable_notas_in_range_witness :
    Reachable ⟨[⟨1, "Math", 1⟩], [], [], []⟩ ∧
    NotasEnRango ⟨[⟨1, "Math", 1⟩], [], [], []⟩ := by
  have hr : Reachable ⟨[⟨1, "Math", 1⟩], [], [], []⟩ :=
    Relation.ReflTransGen.single (Step.crearMateria 1 ⟨"Math", none⟩ (by decide))
  exact ⟨hr, reachable_notas_in_range _ hr⟩

end EduManager
